import Mathlib

/-!
Verification of the operator catalog of `VTIL-Common/math/operators.hpp`.

The C++ source defines a scoped enumeration `operator_id`, a descriptor
structure `operator_desc` with a `to_string` pretty-printer, a static
table `descriptors[]` indexed by the numeric value of the id, a lookup
`descriptor_of`, and the width rounder `round_bit_count`.  Everything
below is a shallow embedding of those declarations.
-/

namespace vtil
namespace math

/- Underlying numeric values of the C++ scoped enumeration
`enum class operator_id`: `invalid` is 0, each enumerator after it is one
larger, and `max` is the past-the-end sentinel.  A raw id is any natural
number, which also models values outside the enumeration's range. -/
namespace operator_id

def invalid : Nat := 0

def bitwise_not : Nat := 1

def bitwise_and : Nat := 2

def bitwise_or : Nat := 3

def bitwise_xor : Nat := 4

def shift_right : Nat := 5

def shift_left : Nat := 6

def rotate_right : Nat := 7

def rotate_left : Nat := 8

def negate : Nat := 9

def add : Nat := 10

def substract : Nat := 11

def multiply_high : Nat := 12

def multiply : Nat := 13

def divide : Nat := 14

def remainder : Nat := 15

def umultiply_high : Nat := 16

def umultiply : Nat := 17

def udivide : Nat := 18

def uremainder : Nat := 19

def zero_extend : Nat := 20

def sign_extend : Nat := 21

def popcnt : Nat := 22

def most_sig_bit : Nat := 23

def least_sig_bit : Nat := 24

def bit_test : Nat := 25

def mask : Nat := 26

def bit_count : Nat := 27

def value_if : Nat := 28

def max_value : Nat := 29

def min_value : Nat := 30

def smax_value : Nat := 31

def smin_value : Nat := 32

def greater : Nat := 33

def greater_eq : Nat := 34

def equal : Nat := 35

def not_equal : Nat := 36

def less_eq : Nat := 37

def less : Nat := 38

def ugreater : Nat := 39

def ugreater_eq : Nat := 40

def uless_eq : Nat := 41

def uless : Nat := 42

def max : Nat := 43

end operator_id

/-- Shallow embedding of `struct operator_desc`.  `symbol` and
`function_name` are `const char*` in the C++ and may be null, hence
`Option String`.  `join_by` is the numeric value of an `operator_id`
and defaults to `invalid` exactly as in the C++ declaration. -/
structure operator_desc where
  hint_bitwise : Int
  is_signed : Bool
  operand_count : Nat
  is_commutative : Bool
  symbol : Option String
  function_name : Option String
  join_by : Nat := operator_id.invalid
  deriving DecidableEq

/-- `operator_desc::to_string( lhs, rhs )`.

The unary, no-symbol branch of the C++ is
`format::str( "%s(%s)", function_name, lhs, rhs )`: the format string has
only two placeholders, so by printf semantics the trailing `rhs` argument
is ignored and the output is `function_name(lhs)`.  The binary, no-symbol
branch uses `"%s(%s, %s)"` and prints both operands.  `none` models the
executions with no defined string result: the `unreachable()` branch
(operand count neither 1 nor 2) and formatting a null `function_name`. -/
def operator_desc.to_string (d : operator_desc) (lhs rhs : String) : Option String :=
  if d.operand_count = 1 then
    match d.symbol with
    | some s => some (s ++ rhs)
    | none => d.function_name.map (fun f => f ++ "(" ++ lhs ++ ")")
  else if d.operand_count = 2 then
    match d.symbol with
    | some s => some ("(" ++ lhs ++ s ++ rhs ++ ")")
    | none => d.function_name.map (fun f => f ++ "(" ++ lhs ++ ", " ++ rhs ++ ")")
  else none

/-- The static table `descriptors[]`, transcribed row by row.  Index 0 is
the value-initialized `{}` entry standing for `::invalid` (all fields
zero / null); every later row is the descriptor of the operator whose id
equals its index.  Field order: hint_bitwise, is_signed, operand_count,
is_commutative, symbol, function_name, join_by. -/
def descriptors : List operator_desc := [
  ⟨0, false, 0, false, none, none, operator_id.invalid⟩,
  ⟨1, false, 1, false, some "~", some "not", operator_id.invalid⟩,
  ⟨1, false, 2, true, some "&", some "and", operator_id.bitwise_and⟩,
  ⟨1, false, 2, true, some "|", some "or", operator_id.bitwise_or⟩,
  ⟨1, false, 2, true, some "^", some "xor", operator_id.bitwise_xor⟩,
  ⟨1, false, 2, false, some ">>", some "shr", operator_id.add⟩,
  ⟨1, false, 2, false, some "<<", some "shl", operator_id.add⟩,
  ⟨1, false, 2, false, some ">]", some "rotr", operator_id.add⟩,
  ⟨1, false, 2, false, some "[<", some "rotl", operator_id.add⟩,
  ⟨-1, true, 1, false, some "-", some "neg", operator_id.invalid⟩,
  ⟨-1, true, 2, true, some "+", some "add", operator_id.add⟩,
  ⟨-1, true, 2, false, some "-", some "sub", operator_id.add⟩,
  ⟨-1, true, 2, true, some "h*", some "mulhi", operator_id.invalid⟩,
  ⟨-1, true, 2, true, some "*", some "mul", operator_id.multiply⟩,
  ⟨-1, true, 2, false, some "/", some "div", operator_id.multiply⟩,
  ⟨-1, true, 2, false, some "%", some "rem", operator_id.invalid⟩,
  ⟨-1, false, 2, true, some "uh*", some "umulhi", operator_id.invalid⟩,
  ⟨-1, false, 2, true, some "u*", some "umul", operator_id.umultiply⟩,
  ⟨-1, false, 2, false, some "u/", some "udiv", operator_id.umultiply⟩,
  ⟨-1, false, 2, false, some "u%", some "urem", operator_id.invalid⟩,
  ⟨0, false, 2, false, none, some "__zx", operator_id.invalid⟩,
  ⟨-1, true, 2, false, none, some "__sx", operator_id.invalid⟩,
  ⟨1, false, 1, false, none, some "__popcnt", operator_id.invalid⟩,
  ⟨1, false, 2, false, none, some "__msb", operator_id.invalid⟩,
  ⟨1, false, 2, false, none, some "__lsb", operator_id.invalid⟩,
  ⟨1, false, 2, false, none, some "__bt", operator_id.invalid⟩,
  ⟨1, false, 1, false, none, some "__mask", operator_id.invalid⟩,
  ⟨1, false, 1, false, none, some "__bcnt", operator_id.invalid⟩,
  ⟨0, false, 2, false, some "?", some "if", operator_id.invalid⟩,
  ⟨0, false, 2, false, none, some "max", operator_id.max_value⟩,
  ⟨0, false, 2, false, none, some "min", operator_id.min_value⟩,
  ⟨0, true, 2, false, none, some "max_sgn", operator_id.smax_value⟩,
  ⟨0, true, 2, false, none, some "min_sgn", operator_id.smin_value⟩,
  ⟨-1, true, 2, false, some ">", some "greater", operator_id.invalid⟩,
  ⟨-1, true, 2, false, some ">=", some "greater_eq", operator_id.invalid⟩,
  ⟨0, false, 2, false, some "==", some "equal", operator_id.invalid⟩,
  ⟨0, false, 2, false, some "!=", some "not_equal", operator_id.invalid⟩,
  ⟨-1, true, 2, false, some "<=", some "less_eq", operator_id.invalid⟩,
  ⟨-1, true, 2, false, some "<", some "less", operator_id.invalid⟩,
  ⟨0, false, 2, false, some "u>", some "ugreater", operator_id.invalid⟩,
  ⟨0, false, 2, false, some "u>=", some "ugreater_eq", operator_id.invalid⟩,
  ⟨0, false, 2, false, some "u<=", some "uless_eq", operator_id.invalid⟩,
  ⟨0, false, 2, false, some "u<", some "uless", operator_id.invalid⟩]

/-- `descriptor_of( id )`: `&descriptors[ (size_t) id ]` when
`invalid < id && id < max`, and `nullptr` (here `none`) otherwise. -/
def descriptor_of (id : Nat) : Option operator_desc :=
  if operator_id.invalid < id ∧ id < operator_id.max then descriptors.get? id
  else none

/-- `round_bit_count( n )`, transcribed from the cascade of comparisons in
the C++ (whose argument is a `uint8_t`, so every call site has `n < 256`). -/
def round_bit_count (n : Nat) : Nat :=
  if n > 32 then 64
  else if n > 16 then 32
  else if n > 8 then 16
  else if n > 1 then 8
  else 1

/-- C2: for every raw bit count `n` with `n ≤ 64`, `round_bit_count n`
is 1 if `n ≤ 1`, 8 if `n ≤ 8`, 16 if `n ≤ 16`, 32 if `n ≤ 32`, and 64
otherwise; in particular the result is always one of 1, 8, 16, 32, 64. -/
theorem round_bit_count_cases (n : Nat) (h : n ≤ 64) :
    round_bit_count n =
      (if n ≤ 1 then 1 else if n ≤ 8 then 8 else if n ≤ 16 then 16
        else if n ≤ 32 then 32 else 64) ∧
    (round_bit_count n = 1 ∨ round_bit_count n = 8 ∨ round_bit_count n = 16 ∨
      round_bit_count n = 32 ∨ round_bit_count n = 64) := by
  unfold round_bit_count
  split_ifs <;> omega

/-- Witness for C2, instantiated at `n = 20`: the rounded width is 32. -/
theorem round_bit_count_cases_witness : round_bit_count 20 = 32 :=
  (round_bit_count_cases 20 (by decide)).1.trans (by decide)

/-- C3 counterexample: the `descriptors` table has 43 entries while
`max - 1 = 42`, because a value-initialized placeholder for `invalid`
occupies index 0; so `table.len == max - 1` fails on the code. -/
theorem descriptors_length_ne_max_sub_one :
    descriptors.length = 43 ∧ operator_id.max - 1 = 42 ∧
      ¬ descriptors.length = operator_id.max - 1 := by decide

/-- C3 (amended): the table has exactly `max` entries: the placeholder at
index 0 standing for `invalid` plus one descriptor per operator id
strictly between `invalid` and `max`, i.e. `max - 1` real descriptors
remain after dropping the placeholder. -/
theorem descriptors_length_eq_max :
    descriptors.length = operator_id.max ∧
      (descriptors.drop 1).length = operator_id.max - 1 := by decide

/-- C7: the `add` descriptor joins by `add`, the `shift_right` descriptor
joins by `add`, and the non-associative `remainder` and `multiply_high`
descriptors have `join_by` left at `invalid` (absent). -/
theorem join_by_entries :
    (descriptor_of operator_id.add).map (fun d => d.join_by)
      = some operator_id.add ∧
    (descriptor_of operator_id.shift_right).map (fun d => d.join_by)
      = some operator_id.add ∧
    (descriptor_of operator_id.remainder).map (fun d => d.join_by)
      = some operator_id.invalid ∧
    (descriptor_of operator_id.multiply_high).map (fun d => d.join_by)
      = some operator_id.invalid := by decide

/-- C8: `equal` and `not_equal` are sign-neutral (`is_signed = false`),
`greater`, `greater_eq`, `less_eq`, `less` are signed, and `ugreater`,
`ugreater_eq`, `uless_eq`, `uless` are unsigned. -/
theorem is_signed_comparisons :
    (descriptor_of operator_id.equal).map (fun d => d.is_signed) = some false ∧
    (descriptor_of operator_id.not_equal).map (fun d => d.is_signed) = some false ∧
    (descriptor_of operator_id.greater).map (fun d => d.is_signed) = some true ∧
    (descriptor_of operator_id.greater_eq).map (fun d => d.is_signed) = some true ∧
    (descriptor_of operator_id.less_eq).map (fun d => d.is_signed) = some true ∧
    (descriptor_of operator_id.less).map (fun d => d.is_signed) = some true ∧
    (descriptor_of operator_id.ugreater).map (fun d => d.is_signed) = some false ∧
    (descriptor_of operator_id.ugreater_eq).map (fun d => d.is_signed) = some false ∧
    (descriptor_of operator_id.uless_eq).map (fun d => d.is_signed) = some false ∧
    (descriptor_of operator_id.uless).map (fun d => d.is_signed) = some false := by
  decide

/-- C1: `descriptor_of` yields a descriptor exactly when
`invalid < id < max`; for `id = invalid`, `id = max`, and any id outside
the enumeration's range it yields nothing, and for a valid id it yields
the table entry at index `id`. -/
theorem descriptor_of_lookup (id : Nat) :
    ((descriptor_of id).isSome ↔
      (operator_id.invalid < id ∧ id < operator_id.max)) ∧
    (operator_id.invalid < id → id < operator_id.max →
      descriptor_of id = descriptors.get? id ∧ (descriptors.get? id).isSome) ∧
    descriptor_of operator_id.invalid = none ∧
    descriptor_of operator_id.max = none := by
  by_cases h : id < 43
  · interval_cases id <;> decide
  · refine ⟨?_, ?_, by decide, by decide⟩
    · have h0 : descriptor_of id = none := by
        unfold descriptor_of
        rw [if_neg]
        intro hc
        exact h (by simpa [operator_id.max] using hc.2)
      rw [h0]
      simp [operator_id.invalid, operator_id.max]
      omega
    · intro _ h2
      exact absurd (by simpa [operator_id.max] using h2) h

/-- Witness for C1 at `id = 10` (`add`): the lookup succeeds and returns
the table entry at index 10. -/
theorem descriptor_of_lookup_witness :
    descriptor_of 10 = descriptors.get? 10 ∧ (descriptor_of 10).isSome := by
  have h := (descriptor_of_lookup 10).2.1 (by decide) (by decide)
  exact ⟨h.1, by rw [h.1]; exact h.2⟩

/-- C4 counterexample: printing the `popcnt` descriptor (arity 1, no
symbol) with operands "a" and "b" yields "__popcnt(a)": the format string
of the unary no-symbol branch has only two placeholders, so the `rhs`
argument is dropped and the result is not "__popcnt(a, b)". -/
theorem to_string_unary_no_symbol_cex :
    (descriptor_of operator_id.popcnt).map (fun d => d.to_string "a" "b")
      = some (some "__popcnt(a)") ∧
    ¬ (descriptor_of operator_id.popcnt).map (fun d => d.to_string "a" "b")
      = some (some "__popcnt(a, b)") := by decide

/-- C4 (amended): for every descriptor with `operand_count = 1` and no
symbol (such as `popcnt`, `mask`, `bcnt`), `to_string lhs rhs` produces
the one-argument function-call form `function_name(lhs)`; the `rhs`
operand string is dropped. -/
theorem to_string_unary_no_symbol (d : operator_desc) (lhs rhs : String)
    (h1 : d.operand_count = 1) (h2 : d.symbol = none) :
    d.to_string lhs rhs
      = d.function_name.map (fun f => f ++ "(" ++ lhs ++ ")") := by
  simp [operator_desc.to_string, h1, h2]

/-- Witness for C4 (amended): the `popcnt` table entry printed with
operands "a" and "b". -/
theorem to_string_unary_no_symbol_witness :
    operator_desc.to_string
        ⟨1, false, 1, false, none, some "__popcnt", 0⟩ "a" "b"
      = some "__popcnt(a)" :=
  (to_string_unary_no_symbol _ "a" "b" rfl rfl).trans (by decide)

/-- C5: `to_string` on an arity-1 descriptor with a symbol gives
`symbol ++ rhs`; on an arity-2 descriptor with a symbol gives the
parenthesized infix form `(lhs symbol rhs)`; and on an arity-2 descriptor
without a symbol gives `function_name(lhs, rhs)`. -/
theorem to_string_forms (d : operator_desc) (lhs rhs : String) :
    (∀ s, d.operand_count = 1 → d.symbol = some s →
      d.to_string lhs rhs = some (s ++ rhs)) ∧
    (∀ s, d.operand_count = 2 → d.symbol = some s →
      d.to_string lhs rhs = some ("(" ++ lhs ++ s ++ rhs ++ ")")) ∧
    (∀ f, d.operand_count = 2 → d.symbol = none → d.function_name = some f →
      d.to_string lhs rhs = some (f ++ "(" ++ lhs ++ ", " ++ rhs ++ ")")) := by
  refine ⟨fun s h1 h2 => ?_, fun s h1 h2 => ?_, fun f h1 h2 h3 => ?_⟩
  · simp [operator_desc.to_string, h1, h2]
  · simp [operator_desc.to_string, h1, h2]
  · simp [operator_desc.to_string, h1, h2, h3]

/-- Witness for C5: the three forms evaluated on the `not`, `add` and
`max_value` table entries with operands "a" and "b". -/
theorem to_string_forms_witness :
    operator_desc.to_string ⟨1, false, 1, false, some "~", some "not", 0⟩ "a" "b"
      = some "~b" ∧
    operator_desc.to_string ⟨-1, true, 2, true, some "+", some "add", 10⟩ "a" "b"
      = some "(a+b)" ∧
    operator_desc.to_string ⟨0, false, 2, false, none, some "max", 29⟩ "a" "b"
      = some "max(a, b)" :=
  ⟨((to_string_forms _ "a" "b").1 "~" rfl rfl).trans (by decide),
   ((to_string_forms _ "a" "b").2.1 "+" rfl rfl).trans (by decide),
   ((to_string_forms _ "a" "b").2.2 "max" rfl rfl rfl).trans (by decide)⟩

/-- C6: every valid id has a descriptor whose arity is 1 or 2 and whose
`function_name` is non-null, so `to_string` always returns a defined
string (it reaches neither the `unreachable()` branch nor a null function
name); moreover `most_sig_bit` and `least_sig_bit` have arity 2 (RHS is
their fallback operand). -/
theorem valid_descriptor_total (id : Nat)
    (h1 : operator_id.invalid < id) (h2 : id < operator_id.max) :
    ∃ d, descriptor_of id = some d ∧
      (d.operand_count = 1 ∨ d.operand_count = 2) ∧
      d.function_name.isSome ∧
      (∀ lhs rhs, (d.to_string lhs rhs).isSome) ∧
      (descriptor_of operator_id.most_sig_bit).map (fun e => e.operand_count)
        = some 2 ∧
      (descriptor_of operator_id.least_sig_bit).map (fun e => e.operand_count)
        = some 2 := by
  have h2' : id < 43 := by simpa [operator_id.max] using h2
  have h1' : 0 < id := by simpa [operator_id.invalid] using h1
  interval_cases id <;>
    exact ⟨_, rfl, by decide, by decide, fun lhs rhs => rfl, by decide, by decide⟩

/-- Witness for C6 at `id = 22` (`popcnt`): the lookup succeeds. -/
theorem valid_descriptor_total_witness : (descriptor_of 22).isSome := by
  obtain ⟨d, hd, -⟩ := valid_descriptor_total 22 (by decide) (by decide)
  rw [hd]
  rfl

/-- C9: `round_bit_count` is idempotent on 8-bit inputs, monotone on
8-bit inputs, and inflationary (`n ≤ round_bit_count n`) for `n ≤ 64`. -/
theorem round_bit_count_props :
    (∀ n : Nat, n < 256 →
      round_bit_count (round_bit_count n) = round_bit_count n) ∧
    (∀ n m : Nat, n < 256 → m < 256 → n ≤ m →
      round_bit_count n ≤ round_bit_count m) ∧
    (∀ n : Nat, n ≤ 64 → n ≤ round_bit_count n) := by
  refine ⟨?_, ?_, ?_⟩ <;> intros <;> unfold round_bit_count <;>
    split_ifs <;> omega

/-- Witness for C9 at `n = 5`, `m = 200`: idempotence, monotonicity and
inflation evaluated concretely. -/
theorem round_bit_count_props_witness :
    round_bit_count (round_bit_count 5) = round_bit_count 5 ∧
    round_bit_count 5 ≤ round_bit_count 200 ∧ (5 : Nat) ≤ round_bit_count 5 :=
  ⟨round_bit_count_props.1 5 (by decide),
   round_bit_count_props.2.1 5 200 (by decide) (by decide) (by decide),
   round_bit_count_props.2.2 5 (by decide)⟩

/-- C10: the operators whose descriptors report commutativity are exactly
`bitwise_and`, `bitwise_or`, `bitwise_xor`, `add`, `multiply_high`,
`multiply`, `umultiply_high` and `umultiply`; every other valid
operator's descriptor has `is_commutative = false`. -/
theorem is_commutative_exactly (id : Nat)
    (h1 : operator_id.invalid < id) (h2 : id < operator_id.max) :
    (descriptor_of id).map (fun d => d.is_commutative) =
      some (decide (id = operator_id.bitwise_and ∨ id = operator_id.bitwise_or ∨
        id = operator_id.bitwise_xor ∨ id = operator_id.add ∨
        id = operator_id.multiply_high ∨ id = operator_id.multiply ∨
        id = operator_id.umultiply_high ∨ id = operator_id.umultiply)) := by
  have h2' : id < 43 := by simpa [operator_id.max] using h2
  have h1' : 0 < id := by simpa [operator_id.invalid] using h1
  interval_cases id <;> decide

/-- Witness for C10 at `id = 10` (`add`): `add` is commutative. -/
theorem is_commutative_exactly_witness :
    (descriptor_of 10).map (fun d => d.is_commutative) = some true :=
  (is_commutative_exactly 10 (by decide) (by decide)).trans (by decide)

end math
end vtil
